import Mathlib

/-!
Shallow embedding of the tensor-binding layer of the `ort` fork
(src/src/run.rs, src/src/session/run.rs, src/src/metadata.rs).

The native ONNX Runtime engine is an external collaborator reachable only
through a C entry-point table; it is modelled by a small `Engine` record of
outcomes for the native calls the embedded functions make, and every embedded
constructor returns, besides its result, the list of native-call events it
performed, so that claims about "no native call is made" / "the reference is
released" are statements about that trace.

Machine integers: shapes are `&[i64]`; the product fold uses wrapping i64
multiplication (release-profile semantics, see `wrap64`), and the `as usize`
cast is the two's-complement reinterpretation `usizeOfI64`.  `usize`
quantities that stay small (byte lengths) are plain `Nat`.
-/

set_option autoImplicit false
set_option linter.unnecessarySeqFocus false

namespace OrtSpec

/-- The C enumeration `ONNXTensorElementDataType` from the engine's header
(an external closed set re-exported by the crate); constructors are listed in
the C declaration order, so the native tag of a variant is its position. -/
inductive ElemTy where
  | undefined
  | float
  | uint8
  | int8
  | uint16
  | int16
  | int32
  | int64
  | string
  | bool
  | float16
  | double
  | uint32
  | uint64
  | complex64
  | complex128
  | bfloat16
deriving DecidableEq, Repr, Fintype

/-- The value of `variant as i32`: the C enum discriminant. -/
def tagOf : ElemTy → Int
  | .undefined => 0
  | .float => 1
  | .uint8 => 2
  | .int8 => 3
  | .uint16 => 4
  | .int16 => 5
  | .int32 => 6
  | .int64 => 7
  | .string => 8
  | .bool => 9
  | .float16 => 10
  | .double => 11
  | .uint32 => 12
  | .uint64 => 13
  | .complex64 => 14
  | .complex128 => 15
  | .bfloat16 => 16

/-- `get_type_size` (src/src/run.rs, lines 137-158): byte width of an element
type; the string variant is the single `Err` arm. -/
def get_type_size : ElemTy → Except String Nat
  | .undefined => .ok 0
  | .float => .ok 4
  | .uint8 => .ok 1
  | .int8 => .ok 1
  | .uint16 => .ok 2
  | .int16 => .ok 2
  | .int32 => .ok 4
  | .int64 => .ok 8
  | .string => .error "unsupported ONNX_TENSOR_ELEMENT_DATA_TYPE_STRING"
  | .bool => .ok 1
  | .float16 => .ok 2
  | .double => .ok 8
  | .uint32 => .ok 4
  | .uint64 => .ok 8
  | .complex64 => .ok 8
  | .complex128 => .ok 16
  | .bfloat16 => .ok 2

/-- `convert_to_onnx_el_type` (src/src/run.rs, lines 160-233): the `match i`
over the 17 enum discriminants, with the catch-all arm
`Err(format!("unknown type: {i}"))`. -/
def convert_to_onnx_el_type (i : Int) : Except String ElemTy :=
  if i = 0 then .ok .undefined
  else if i = 1 then .ok .float
  else if i = 2 then .ok .uint8
  else if i = 3 then .ok .int8
  else if i = 4 then .ok .uint16
  else if i = 5 then .ok .int16
  else if i = 6 then .ok .int32
  else if i = 7 then .ok .int64
  else if i = 8 then .ok .string
  else if i = 9 then .ok .bool
  else if i = 10 then .ok .float16
  else if i = 11 then .ok .double
  else if i = 12 then .ok .uint32
  else if i = 13 then .ok .uint64
  else if i = 14 then .ok .complex64
  else if i = 15 then .ok .complex128
  else if i = 16 then .ok .bfloat16
  else .error ("unknown type: " ++ toString i)

/-- Wrapping i64 arithmetic: two's-complement reduction into
`[-2^63, 2^63)` (release-profile overflow semantics for the shape fold;
a debug-profile overflow abort is the spec's sanctioned defensive
termination and is not modelled). -/
def wrap64 (x : Int) : Int :=
  (x + 2 ^ 63) % 2 ^ 64 - 2 ^ 63

/-- `shape.iter().fold(1, |a, b| a * b)` over i64. -/
def i64prod (shape : List Int) : Int :=
  shape.foldl (fun a b => wrap64 (a * b)) 1

/-- The `len as usize` cast: two's-complement reinterpretation of an i64
value as a 64-bit unsigned quantity. -/
def usizeOfI64 (x : Int) : Nat :=
  (x % 2 ^ 64).toNat

/-- Wrapping usize multiplication (release-profile semantics, matching
`wrap64` for the i64 fold): the product `len as usize * size` of
src/src/run.rs line 239 reduced modulo 2^64. -/
def usizeMul (a b : Nat) : Nat :=
  a * b % 2 ^ 64

/-- `crate::Error` variants reachable from the embedded functions. -/
inductive OrtErr where
  | memInfoFailed
  | pointerShouldNotBeNull (what : String)
  | createTensorWithData
  | failedTensorCheck
  | sessionRun
deriving DecidableEq, Repr

/-- `RunError` (src/src/run.rs, lines 10-16): a passed-through `crate::Error`
or a formatted message. -/
inductive RunErr where
  | ortErr (e : OrtErr)
  | msg (s : String)
deriving DecidableEq, Repr

/-- Result of a Rust call that can return `Ok`, return `Err`, or panic
(assert!/unwrap! aborts are observable outcomes distinct from typed errors). -/
inductive Outcome (ε α : Type) where
  | ok (a : α)
  | err (e : ε)
  | panic
deriving DecidableEq, Repr

/-- One native-engine call performed by the embedded code.  Tensor values and
memory-info descriptors are identified by abstract numeric addresses. -/
inductive Ev where
  | create (byteLen : Nat) (shape : List Int) (tag : Int)
  | isTensorCheck (p : Nat)
  | release (p : Nat)
  | releaseMemInfo (m : Nat)
  | runCall (inCount : Nat) (outCount : Nat)
deriving DecidableEq, Repr

/-- Behaviour of the native `CreateTensorWithDataAsOrtValue` call: an error
status, success writing a null pointer, or success with a tensor address. -/
inductive CreateRes where
  | errStatus
  | nullPtr
  | ok (p : Nat)
deriving DecidableEq, Repr

/-- Behaviour of the native `IsTensor` call: an error status, or success
writing the flag value `v`. -/
inductive TensorCheck where
  | errStatus
  | val (v : Nat)
deriving DecidableEq, Repr

/-- Model of the external native engine for one constructor invocation. -/
structure Engine where
  memInfoOk : Bool
  createRes : CreateRes
  isTensorRes : TensorCheck
deriving DecidableEq, Repr

/-- An engine on which every native call succeeds. -/
def goodEng : Engine :=
  { memInfoOk := true, createRes := .ok 1, isTensorRes := .val 1 }

/-- `format!("data len should be >= target len: [{} >= {}]?", data.len(), len)`
with `len : i64` (the typed constructors of src/src/run.rs). -/
def lenMsgI (dataLen : Nat) (len : Int) : String :=
  "data len should be >= target len: [" ++ toString dataLen ++ " >= " ++
    toString len ++ "]?"

/-- Same message with `len : usize` (the raw-bytes constructors). -/
def lenMsgU (dataLen : Nat) (len : Nat) : String :=
  "data len should be >= target len: [" ++ toString dataLen ++ " >= " ++
    toString len ++ "]?"

/-- Common tail of every constructor after its length check, mirrored from the
source verbatim: create the CPU memory-info descriptor, check the data pointer
is non-null, call `CreateTensorWithDataAsOrtValue` (null result rejected),
call `IsTensor` (error propagated WITHOUT releasing the created value), and
`assert_eq!(is_tensor, 1)`.  `errWrap` injects `crate::Error` into the
function's error type (`RunError::OrtError` in run.rs, identity in
session/run.rs). -/
def createAndCheck {ε : Type} (errWrap : OrtErr → ε) (byteLen : Nat)
    (shape : List Int) (tag : Int) (dataPtrNull : Bool) (eng : Engine) :
    Outcome ε Nat × List Ev :=
  if !eng.memInfoOk then (.err (errWrap .memInfoFailed), [])
  else if dataPtrNull then
    (.err (errWrap (.pointerShouldNotBeNull "TensorValues")), [])
  else
    match eng.createRes with
    | .errStatus =>
        (.err (errWrap .createTensorWithData), [.create byteLen shape tag])
    | .nullPtr =>
        (.err (errWrap (.pointerShouldNotBeNull "value_ptr")),
          [.create byteLen shape tag])
    | .ok p =>
        match eng.isTensorRes with
        | .errStatus =>
            (.err (errWrap .failedTensorCheck),
              [.create byteLen shape tag, .isTensorCheck p])
        | .val v =>
            if v = 1 then (.ok p, [.create byteLen shape tag, .isTensorCheck p])
            else (.panic, [.create byteLen shape tag, .isTensorCheck p])

namespace RunRs

/-- `RustOwnerValue::new` (src/src/run.rs, lines 46-77): `tty`/`tsize` are the
static element type of `T` and `size_of::<T>()`; `dataLen` is `data.len()`.
The length check is `data.len() < len as usize → Err(Msg(...))`; the byte
length handed to the native create is `data.len() * size_of::<T>()`. -/
def new (tty : ElemTy) (tsize : Nat) (shape : List Int) (dataLen : Nat)
    (dataPtrNull : Bool) (eng : Engine) : Outcome RunErr Nat × List Ev :=
  if dataLen < usizeOfI64 (i64prod shape) then
    (.err (.msg (lenMsgI dataLen (i64prod shape))), [])
  else
    createAndCheck RunErr.ortErr (dataLen * tsize) shape (tagOf tty)
      dataPtrNull eng

/-- `RustOwnerValue::new_mut` (src/src/run.rs, lines 94-125): same body as
`new` over a mutable container. -/
def new_mut (tty : ElemTy) (tsize : Nat) (shape : List Int) (dataLen : Nat)
    (dataPtrNull : Bool) (eng : Engine) : Outcome RunErr Nat × List Ev :=
  if dataLen < usizeOfI64 (i64prod shape) then
    (.err (.msg (lenMsgI dataLen (i64prod shape))), [])
  else
    createAndCheck RunErr.ortErr (dataLen * tsize) shape (tagOf tty)
      dataPtrNull eng

/-- `RustOwnerValue::<&[u8]>::with_any_type` (src/src/run.rs, lines 237-269):
`get_type_size(type_).unwrap()` panics on the string variant; otherwise the
check is `data.len() < (product(shape) as usize) * size` with wrapping usize
multiplication, and the byte length handed to the native create is
`data.len()` itself. -/
def with_any_type (shape : List Int) (dataLen : Nat) (dataPtrNull : Bool)
    (tty : ElemTy) (eng : Engine) : Outcome RunErr Nat × List Ev :=
  match get_type_size tty with
  | .error _ => (.panic, [])
  | .ok size =>
    if dataLen < usizeMul (usizeOfI64 (i64prod shape)) size then
      (.err (.msg (lenMsgU dataLen (usizeMul (usizeOfI64 (i64prod shape)) size))), [])
    else
      createAndCheck RunErr.ortErr dataLen shape (tagOf tty) dataPtrNull eng

/-- `RustOwnerValue::<&mut [u8]>::with_any_type_mut` (src/src/run.rs, lines
274-306): same body as `with_any_type` over a mutable byte slice. -/
def with_any_type_mut (shape : List Int) (dataLen : Nat) (dataPtrNull : Bool)
    (tty : ElemTy) (eng : Engine) : Outcome RunErr Nat × List Ev :=
  match get_type_size tty with
  | .error _ => (.panic, [])
  | .ok size =>
    if dataLen < usizeMul (usizeOfI64 (i64prod shape)) size then
      (.err (.msg (lenMsgU dataLen (usizeMul (usizeOfI64 (i64prod shape)) size))), [])
    else
      createAndCheck RunErr.ortErr dataLen shape (tagOf tty) dataPtrNull eng

/-- `impl Drop for RustOwnerValue` (src/src/run.rs, lines 25-29) together with
the implicit field drops that follow the drop body: `ReleaseValue(self.ptr)`
first, then the `_memory_info` field's own destructor releases the
memory-info descriptor. -/
def dropEvents {C : Type} (ptr : Nat) (memInfo : Nat) (_owner : C) : List Ev :=
  [.release ptr, .releaseMemInfo memInfo]

/-- `RustOwnerValue::into_container` (src/src/run.rs, lines 31-39):
`ReleaseValue(self.ptr)` immediately, the original `_memory_info` is moved out
by `mem::replace` and dropped locally (releasing the descriptor), the owner is
moved out and returned, and `mem::forget(self)` suppresses the `Drop` impl —
the returned flag records that suppression. -/
def into_container {C : Type} (ptr : Nat) (memInfo : Nat) (owner : C) :
    C × List Ev × Bool :=
  (owner, [.release ptr, .releaseMemInfo memInfo], true)

/-- Native events over a whole handle lifetime: either the handle is simply
dropped, or `into_container` runs and the destructor fires afterwards only if
`mem::forget` had not suppressed it. -/
def lifetimeEvents {C : Type} (ptr : Nat) (memInfo : Nat) (owner : C)
    (takeBuffer : Bool) : List Ev :=
  if takeBuffer then
    (into_container ptr memInfo owner).2.1 ++
      (if (into_container ptr memInfo owner).2.2 then []
       else dropEvents ptr memInfo owner)
  else dropEvents ptr memInfo owner

/-- `Session::run_with_io_ref` (src/src/run.rs, lines 478-515): no count
validation at all — it derives the pointer arrays and invokes the native
`Run` with `input_ort_values.len()` inputs and `output_names.len()` outputs
(names and handles are the caller's `Names`/slices, already converted). -/
def run_with_io_ref (_inputNames : List (List Nat)) (inputs : List Nat)
    (outputNames : List (List Nat)) (_outputs : List Nat)
    (_runOptions : Option Nat) (runOk : Bool) : Outcome OrtErr Unit × List Ev :=
  if runOk then (.ok (), [.runCall inputs.length outputNames.length])
  else (.err .sessionRun, [.runCall inputs.length outputNames.length])

end RunRs

namespace SessRunRs

/-- `RustOwnerValue::new` (src/src/session/run.rs, lines 21-50): the length
check is `assert_eq!(len as usize, data.len())`, a panic on mismatch; the
rest is the common create-and-check tail with `crate::Error` directly. -/
def new (tty : ElemTy) (tsize : Nat) (shape : List Int) (dataLen : Nat)
    (dataPtrNull : Bool) (eng : Engine) : Outcome OrtErr Nat × List Ev :=
  if usizeOfI64 (i64prod shape) ≠ dataLen then (.panic, [])
  else createAndCheck id (dataLen * tsize) shape (tagOf tty) dataPtrNull eng

/-- `RustOwnerValue::new_mut` (src/src/session/run.rs, lines 67-96): same body
as `new` over a mutable container. -/
def new_mut (tty : ElemTy) (tsize : Nat) (shape : List Int) (dataLen : Nat)
    (dataPtrNull : Bool) (eng : Engine) : Outcome OrtErr Nat × List Ev :=
  if usizeOfI64 (i64prod shape) ≠ dataLen then (.panic, [])
  else createAndCheck id (dataLen * tsize) shape (tagOf tty) dataPtrNull eng

/-- `RustOwnerValue::<&[u8]>::with_any_type` (src/src/session/run.rs, lines
110-141): `assert!` that the raw i32 tag lies in `[UNDEFINED, BFLOAT16]`
(panic otherwise), then `assert_eq!(len as usize, data.len())` comparing the
ELEMENT count against the BYTE length (no width lookup at all), then the
common tail passing `transmute(type_)` and `data.len()` bytes. -/
def with_any_type (shape : List Int) (dataLen : Nat) (dataPtrNull : Bool)
    (ty : Int) (eng : Engine) : Outcome OrtErr Nat × List Ev :=
  if ¬(0 ≤ ty ∧ ty ≤ 16) then (.panic, [])
  else if usizeOfI64 (i64prod shape) ≠ dataLen then (.panic, [])
  else createAndCheck id dataLen shape ty dataPtrNull eng

/-- `RustOwnerValue::<&mut [u8]>::with_any_type_mut` (src/src/session/run.rs,
lines 146-177): same body as `with_any_type` over a mutable byte slice. -/
def with_any_type_mut (shape : List Int) (dataLen : Nat) (dataPtrNull : Bool)
    (ty : Int) (eng : Engine) : Outcome OrtErr Nat × List Ev :=
  if ¬(0 ≤ ty ∧ ty ≤ 16) then (.panic, [])
  else if usizeOfI64 (i64prod shape) ≠ dataLen then (.panic, [])
  else createAndCheck id dataLen shape ty dataPtrNull eng

/-- `Session::run_io` (src/src/session/run.rs, lines 181-236).  Strings are
byte lists.  In order: `assert_eq!(outputs.len(), self.outputs.len())`
(panic on mismatch, before anything else); `CString::new(..).unwrap()` over
the caller input names and over the session's declared output names (panic if
any contains a NUL byte); then the native `Run` with `inputs.len()` inputs
and `self.outputs.len()` outputs. -/
def run_io (sessionOutputs : List (List Nat)) (inputNames : List (List Nat))
    (inputs : List Nat) (outputs : List Nat) (_runOptions : Option Nat)
    (runOk : Bool) : Outcome OrtErr Unit × List Ev :=
  if outputs.length ≠ sessionOutputs.length then (.panic, [])
  else if ∃ s ∈ inputNames, (0 : Nat) ∈ s then (.panic, [])
  else if ∃ s ∈ sessionOutputs, (0 : Nat) ∈ s then (.panic, [])
  else if runOk then (.ok (), [.runCall inputs.length sessionOutputs.length])
  else (.err .sessionRun, [.runCall inputs.length sessionOutputs.length])

end SessRunRs

/-- An owned null-terminated string: the abstract address `CString::new`
allocated for it, and its bytes (terminator included). -/
structure CStr where
  addr : Nat
  bytes : List Nat
deriving DecidableEq, Repr

/-- Loop body of `impl From<Vec<T>> for Names<Vec<CString>>` (src/src/run.rs,
lines 341-355): for each string, `CString::new(name).unwrap()` — a panic if
the string contains an embedded NUL byte, otherwise a fresh allocation at
address `k` whose pointer is pushed into `ptrs` and whose owned string is
pushed into `names`. -/
def namesFromAux : List (List Nat) → Nat → Outcome Unit (List Nat × List CStr)
  | [], _ => .ok ([], [])
  | s :: rest, k =>
    if (0 : Nat) ∈ s then .panic
    else
      match namesFromAux rest (k + 1) with
      | .ok (ps, ns) => .ok (k :: ps, ⟨k, s ++ [0]⟩ :: ns)
      | .err e => .err e
      | .panic => .panic

/-- `Names::from(value: Vec<T>)`: the whole conversion, allocating addresses
from 0; returns the raw pointer array and the owned strings. -/
def namesFromVec (value : List (List Nat)) :
    Outcome Unit (List Nat × List CStr) :=
  namesFromAux value 0

end OrtSpec

namespace OrtSpec

/-- After a passed length check, the run.rs constructors can only return
`Ok`, panic, or an `OrtError`-wrapped error: never the formatted `Msg`
length error, and their failure trace is the pinned one of each branch. -/
theorem createAndCheck_ne_err_msg (b : Nat) (sh : List Int) (t : Int)
    (d : Bool) (e : Engine) (s : String) :
    createAndCheck RunErr.ortErr b sh t d e ≠ (.err (.msg s), []) := by
  rcases e with ⟨mi, cr, it⟩
  cases mi <;> cases d <;> cases cr <;> cases it <;>
    simp [createAndCheck] <;> split <;> simp

/-- The common create-and-check tail never panics with an empty trace: its
only panic (`assert_eq!(is_tensor, 1)`) happens after the create call. -/
theorem createAndCheck_ne_panic_nil {ε : Type} (w : OrtErr → ε) (b : Nat)
    (sh : List Int) (t : Int) (d : Bool) (e : Engine) :
    createAndCheck w b sh t d e ≠ (.panic, []) := by
  rcases e with ⟨mi, cr, it⟩
  cases mi <;> cases d <;> cases cr <;> cases it <;>
    simp [createAndCheck] <;> split <;> simp

/-- Claim C7: tag/type round-trip: for every defined ElementType variant
(all 17 members, string and undefined included), converting the variant to its
integer native tag and back through `convert_to_onnx_el_type` returns the same
variant. -/
theorem C7_tag_roundtrip :
    ∀ t : ElemTy, convert_to_onnx_el_type (tagOf t) = .ok t := by
  intro t
  cases t <;> rfl

/-- Claim C8: `convert_to_onnx_el_type` is total with explicit failure: every
integer in the defined tag range `[0, 16]` maps to the variant carrying that
tag, and every other integer yields the formatted unknown-type error value —
it is a pure function and no input panics. -/
theorem C8_fromTag_total :
    ∀ i : Int,
      (0 ≤ i ∧ i ≤ 16 ∧ ∃ t, convert_to_onnx_el_type i = .ok t ∧ tagOf t = i)
      ∨ ((i < 0 ∨ 16 < i) ∧
          convert_to_onnx_el_type i = .error ("unknown type: " ++ toString i)) := by
  intro i
  by_cases h : 0 ≤ i ∧ i ≤ 16
  · left
    obtain ⟨h1, h2⟩ := h
    refine ⟨h1, h2, ?_⟩
    interval_cases i <;> exact ⟨_, rfl, rfl⟩
  · right
    refine ⟨by omega, ?_⟩
    unfold convert_to_onnx_el_type
    repeat rw [if_neg (by omega)]

/-- Claim C9: `get_type_size` fails with an explicit error (never a panic) for
the string element type, returns 0 for the undefined variant rather than
failing, and returns a byte width of at least 1 for every other variant. -/
theorem C9_width_contract :
    get_type_size .string =
        .error "unsupported ONNX_TENSOR_ELEMENT_DATA_TYPE_STRING"
    ∧ get_type_size .undefined = .ok 0
    ∧ ∀ t : ElemTy, t ≠ .string → t ≠ .undefined →
        ∃ n, get_type_size t = .ok n ∧ 1 ≤ n := by
  refine ⟨rfl, rfl, ?_⟩
  intro t h1 h2
  cases t
  case string => exact absurd rfl h1
  case undefined => exact absurd rfl h2
  all_goals exact ⟨_, rfl, by decide⟩

/-- Witness for C9 at the int64 variant. -/
theorem C9_width_contract_witness :
    ∃ n, get_type_size .int64 = .ok n ∧ 1 ≤ n :=
  C9_width_contract.2.2 .int64 (by decide) (by decide)

/-- Claim C1 counterexample: shape [2,3] (element count 6) with a buffer of
length 7 — product(shape) ≠ buffer length, yet `RustOwnerValue::new` passes
its length check, makes the native create call, and succeeds. -/
theorem C1_counterexample :
    usizeOfI64 (i64prod [2, 3]) ≠ 7
    ∧ RunRs.new .float 4 [2, 3] 7 false goodEng
        = (.ok 1, [.create 28 [2, 3] 1, .isTensorCheck 1]) :=
  ⟨by decide, by decide⟩

/-- Claim C1 (amended): the typed-buffer constructors make no native call
when their length check fires, but the check in run.rs is
`buffer length < product(shape)` — a typed `Msg` error, with larger-than-
needed buffers accepted — while the session/run.rs variants instead panic
via `assert_eq!` exactly when buffer length differs from product(shape). -/
theorem C1_length_check (tty : ElemTy) (tsize : Nat) (shape : List Int)
    (dataLen : Nat) (dnull : Bool) (eng : Engine) :
    (RunRs.new tty tsize shape dataLen dnull eng
        = (.err (.msg (lenMsgI dataLen (i64prod shape))), [])
      ↔ dataLen < usizeOfI64 (i64prod shape))
    ∧ (RunRs.new_mut tty tsize shape dataLen dnull eng
        = (.err (.msg (lenMsgI dataLen (i64prod shape))), [])
      ↔ dataLen < usizeOfI64 (i64prod shape))
    ∧ (SessRunRs.new tty tsize shape dataLen dnull eng = (.panic, [])
      ↔ usizeOfI64 (i64prod shape) ≠ dataLen)
    ∧ (SessRunRs.new_mut tty tsize shape dataLen dnull eng = (.panic, [])
      ↔ usizeOfI64 (i64prod shape) ≠ dataLen) := by
  refine ⟨?_, ?_, ?_, ?_⟩
  · by_cases hlt : dataLen < usizeOfI64 (i64prod shape)
    · simp [RunRs.new, hlt]
    · simp only [RunRs.new, if_neg hlt, hlt, iff_false]
      exact createAndCheck_ne_err_msg _ _ _ _ _ _
  · by_cases hlt : dataLen < usizeOfI64 (i64prod shape)
    · simp [RunRs.new_mut, hlt]
    · simp only [RunRs.new_mut, if_neg hlt, hlt, iff_false]
      exact createAndCheck_ne_err_msg _ _ _ _ _ _
  · by_cases hne : usizeOfI64 (i64prod shape) ≠ dataLen
    · simp [SessRunRs.new, hne]
    · simp only [SessRunRs.new, if_neg hne, hne, iff_false]
      exact createAndCheck_ne_panic_nil _ _ _ _ _ _
  · by_cases hne : usizeOfI64 (i64prod shape) ≠ dataLen
    · simp [SessRunRs.new_mut, hne]
    · simp only [SessRunRs.new_mut, if_neg hne, hne, iff_false]
      exact createAndCheck_ne_panic_nil _ _ _ _ _ _

/-- Claim C2 counterexample: `with_any_type` invoked with the string element
type panics (`unwrap` on the width lookup's `Err`) — the outcome is a panic,
not a typed error value. -/
theorem C2_counterexample :
    get_type_size .string =
        .error "unsupported ONNX_TENSOR_ELEMENT_DATA_TYPE_STRING"
    ∧ RunRs.with_any_type [1] 1 false .string goodEng = (.panic, [])
    ∧ ∀ e, (RunRs.with_any_type [1] 1 false .string goodEng).1
        ≠ Outcome.err e := by
  refine ⟨rfl, rfl, fun e h => ?_⟩
  simp [RunRs.with_any_type, get_type_size] at h

/-- Claim C2 (amended): for the string element type the run.rs raw-bytes
constructors always panic (regardless of the buffer), and the
session/run.rs raw-bytes constructor accepts tag 8 (string) without any
width check: it panics only on its element-count assert, and otherwise
proceeds to the native create call. -/
theorem C2_string_behavior (shape : List Int) (dataLen : Nat) (dnull : Bool)
    (eng : Engine) :
    RunRs.with_any_type shape dataLen dnull .string eng = (.panic, [])
    ∧ RunRs.with_any_type_mut shape dataLen dnull .string eng = (.panic, [])
    ∧ (SessRunRs.with_any_type shape dataLen dnull 8 eng = (.panic, [])
      ↔ usizeOfI64 (i64prod shape) ≠ dataLen) := by
  refine ⟨rfl, rfl, ?_⟩
  simp only [SessRunRs.with_any_type]
  rw [if_neg (by decide)]
  by_cases hne : usizeOfI64 (i64prod shape) ≠ dataLen
  · simp [hne]
  · rw [if_neg hne]
    simp only [hne, iff_false]
    exact createAndCheck_ne_panic_nil _ _ _ _ _ _

/-- Claim C3 counterexample: shape [4] with int32 (width 4) and a 17-byte
buffer — 17 ≠ 16, yet `with_any_type` passes its length check, makes the
native create call, and succeeds. -/
theorem C3_counterexample :
    (17 : Nat) ≠ usizeMul (usizeOfI64 (i64prod [4])) 4
    ∧ RunRs.with_any_type [4] 17 false .int32 goodEng
        = (.ok 1, [.create 17 [4] 6, .isTensorCheck 1]) :=
  ⟨by decide, by decide⟩

/-- Claim C3 (amended): for any element type of known width, the run.rs
raw-bytes constructors reject a byte buffer with the typed length error
(making no native call) exactly when its length is LESS than
product(shape) * width, the product computed in wrapping usize arithmetic;
any buffer at least that long is accepted.  In particular the spec's
scenario — shape [4], int32, 15 bytes — is rejected. -/
theorem C3_raw_length_check (shape : List Int) (dataLen : Nat) (dnull : Bool)
    (eng : Engine) (tty : ElemTy) (size : Nat)
    (hsize : get_type_size tty = .ok size) :
    (RunRs.with_any_type shape dataLen dnull tty eng
        = (.err (.msg (lenMsgU dataLen
            (usizeMul (usizeOfI64 (i64prod shape)) size))), [])
      ↔ dataLen < usizeMul (usizeOfI64 (i64prod shape)) size)
    ∧ (RunRs.with_any_type_mut shape dataLen dnull tty eng
        = (.err (.msg (lenMsgU dataLen
            (usizeMul (usizeOfI64 (i64prod shape)) size))), [])
      ↔ dataLen < usizeMul (usizeOfI64 (i64prod shape)) size) := by
  constructor
  · simp only [RunRs.with_any_type, hsize]
    by_cases hlt : dataLen < usizeMul (usizeOfI64 (i64prod shape)) size
    · simp [hlt]
    · rw [if_neg hlt]
      simp only [hlt, iff_false]
      exact createAndCheck_ne_err_msg _ _ _ _ _ _
  · simp only [RunRs.with_any_type_mut, hsize]
    by_cases hlt : dataLen < usizeMul (usizeOfI64 (i64prod shape)) size
    · simp [hlt]
    · rw [if_neg hlt]
      simp only [hlt, iff_false]
      exact createAndCheck_ne_err_msg _ _ _ _ _ _

/-- Witness for C3 at the spec's scenario: shape [4], int32 (width 4),
15 bytes is rejected with the typed length error and no native call. -/
theorem C3_raw_length_check_witness :
    RunRs.with_any_type [4] 15 false .int32 goodEng
      = (.err (.msg (lenMsgU 15 (usizeMul (usizeOfI64 (i64prod [4])) 4))), []) :=
  (C3_raw_length_check [4] 15 false goodEng .int32 4 rfl).1.mpr (by decide)

/-- Claim C4 counterexample: 2 output handles against a session declaring 1
output — `run_io` panics (assert_eq) with no native call made; the outcome
is not a typed error value of any kind. -/
theorem C4_counterexample :
    SessRunRs.run_io [[121]] [[120]] [5] [6, 7] none true = (.panic, [])
    ∧ ∀ e, (SessRunRs.run_io [[121]] [[120]] [5] [6, 7] none true).1
        ≠ Outcome.err e := by
  refine ⟨by decide, fun e h => ?_⟩
  rw [show (SessRunRs.run_io [[121]] [[120]] [5] [6, 7] none true).1
        = Outcome.panic from by decide] at h
  exact Outcome.noConfusion h

/-- Claim C4 (amended): when the output handle count differs from the
session's declared output count, `run_io` fails before any native call is
made, but by assertion panic, not a typed error; `run_with_io_ref` performs
no output-count validation at all and always reaches the native run call. -/
theorem C4_output_count_check (so inNames : List (List Nat))
    (ins outs : List Nat) (ro : Option Nat) (runOk : Bool)
    (hc : outs.length ≠ so.length) :
    SessRunRs.run_io so inNames ins outs ro runOk = (.panic, [])
    ∧ ∀ onames : List (List Nat),
        (RunRs.run_with_io_ref inNames ins onames outs ro runOk).2
          = [Ev.runCall ins.length onames.length] := by
  constructor
  · simp [SessRunRs.run_io, hc]
  · intro onames
    cases runOk <;> rfl

/-- Witness for C4: 3 output handles against a session declaring 1 output. -/
theorem C4_output_count_check_witness :
    SessRunRs.run_io [[121]] [[120]] [5] [7, 8, 9] none true = (.panic, []) :=
  (C4_output_count_check [[121]] [[120]] [5] [7, 8, 9] none true (by decide)).1

/-- Claim C5 counterexample: native creation succeeds (tensor address 7) and
the `IsTensor` post-check errors — `new` returns the FailedTensorCheck error
but the trace contains no release of the created reference: it leaks. -/
theorem C5_counterexample :
    RunRs.new .float 4 [2] 2 false
        { memInfoOk := true, createRes := .ok 7, isTensorRes := .errStatus }
      = (.err (.ortErr .failedTensorCheck),
          [.create 8 [2] 1, .isTensorCheck 7])
    ∧ Ev.release 7 ∉ (RunRs.new .float 4 [2] 2 false
        { memInfoOk := true, createRes := .ok 7,
          isTensorRes := .errStatus }).2 :=
  ⟨by decide, by decide⟩

/-- Claim C5 (amended): in the constructors, when the native create succeeds
and the `IsTensor` post-check fails, the error is returned WITHOUT releasing
the already-created native tensor reference — no release event ever appears
in the constructor's native-call trace, so the reference is leaked (in both
the run.rs and session/run.rs variants). -/
theorem C5_leak_on_failed_check (tty : ElemTy) (tsize : Nat)
    (shape : List Int) (dataLen : Nat) (p : Nat)
    (hle : usizeOfI64 (i64prod shape) ≤ dataLen) :
    (RunRs.new tty tsize shape dataLen false
          { memInfoOk := true, createRes := .ok p, isTensorRes := .errStatus }
        = (.err (.ortErr .failedTensorCheck),
            [.create (dataLen * tsize) shape (tagOf tty), .isTensorCheck p])
      ∧ ∀ q, Ev.release q ∉ (RunRs.new tty tsize shape dataLen false
          { memInfoOk := true, createRes := .ok p,
            isTensorRes := .errStatus }).2)
    ∧ (usizeOfI64 (i64prod shape) = dataLen →
        SessRunRs.new tty tsize shape dataLen false
            { memInfoOk := true, createRes := .ok p,
              isTensorRes := .errStatus }
          = (.err .failedTensorCheck,
              [.create (dataLen * tsize) shape (tagOf tty),
                .isTensorCheck p])) := by
  have hnew : RunRs.new tty tsize shape dataLen false
      { memInfoOk := true, createRes := .ok p, isTensorRes := .errStatus }
      = (.err (.ortErr .failedTensorCheck),
          [.create (dataLen * tsize) shape (tagOf tty), .isTensorCheck p]) := by
    simp only [RunRs.new]
    rw [if_neg (by omega)]
    rfl
  refine ⟨⟨hnew, ?_⟩, ?_⟩
  · intro q
    rw [hnew]
    simp
  · intro heq
    simp only [SessRunRs.new]
    rw [if_neg (by omega)]
    rfl

/-- Witness for C5 with the post-check failing at tensor address 9. -/
theorem C5_leak_on_failed_check_witness :
    RunRs.new .float 4 [2] 2 false
        { memInfoOk := true, createRes := .ok 9, isTensorRes := .errStatus }
      = (.err (.ortErr .failedTensorCheck),
          [.create 8 [2] 1, .isTensorCheck 9]) :=
  (C5_leak_on_failed_check .float 4 [2] 2 9 (by decide)).1.1

/-- Claim C6: over the whole lifetime of an owned tensor handle — either a
plain drop, or `into_container` (which releases immediately and suppresses
the destructor via `mem::forget`) — the native tensor reference is released
exactly once. -/
theorem C6_release_exactly_once (C : Type) (ptr memInfo : Nat) (owner : C)
    (takeBuffer : Bool) :
    (RunRs.lifetimeEvents ptr memInfo owner takeBuffer).count
      (Ev.release ptr) = 1 := by
  cases takeBuffer <;>
    simp [RunRs.lifetimeEvents, RunRs.into_container, RunRs.dropEvents,
      List.count_cons, List.count_nil]

/-- The name-table build never returns a panic on a NUL-free input, returns a
pointer array parallel to the owned NUL-terminated strings on success, and
panics exactly when some input string contains an embedded NUL byte.
Stated over any starting allocation address. -/
theorem namesFromAux_spec (v : List (List Nat)) : ∀ k : Nat,
    (namesFromAux v k = .panic ↔ ∃ s ∈ v, (0 : Nat) ∈ s)
    ∧ ∀ ps ns, namesFromAux v k = .ok (ps, ns) →
        ps = ns.map CStr.addr
        ∧ ns.map CStr.bytes = v.map (fun s => s ++ [0]) := by
  induction v with
  | nil =>
    intro k
    refine ⟨by simp [namesFromAux], ?_⟩
    intro ps ns h
    simp only [namesFromAux, Outcome.ok.injEq, Prod.mk.injEq] at h
    obtain ⟨h1, h2⟩ := h
    subst h1
    subst h2
    simp
  | cons s rest ih =>
    intro k
    obtain ⟨ih1, ih2⟩ := ih (k + 1)
    by_cases hs : (0 : Nat) ∈ s
    · refine ⟨⟨fun _ => ⟨s, by simp, hs⟩, fun _ => by simp [namesFromAux, hs]⟩, ?_⟩
      intro ps ns h
      simp [namesFromAux, hs] at h
    · cases hrec : namesFromAux rest (k + 1) with
      | ok pr =>
        obtain ⟨ps', ns'⟩ := pr
        have hnr : ¬∃ t ∈ rest, (0 : Nat) ∈ t := by
          rw [← ih1, hrec]
          simp
        refine ⟨?_, ?_⟩
        · simp only [namesFromAux, if_neg hs, hrec]
          constructor
          · intro h
            exact absurd h (by simp)
          · rintro ⟨t, ht, h0⟩
            rcases List.mem_cons.mp ht with h | h
            · exact absurd h0 (h ▸ hs)
            · exact absurd ⟨t, h, h0⟩ hnr
        · intro ps ns h
          simp only [namesFromAux, if_neg hs, hrec, Outcome.ok.injEq,
            Prod.mk.injEq] at h
          obtain ⟨hp, hn⟩ := h
          obtain ⟨ihp, ihb⟩ := ih2 ps' ns' hrec
          subst hp
          subst hn
          simp [ihp, ihb]
      | err e =>
        have hnr : ¬∃ t ∈ rest, (0 : Nat) ∈ t := by
          rw [← ih1, hrec]
          simp
        refine ⟨?_, ?_⟩
        · simp only [namesFromAux, if_neg hs, hrec]
          constructor
          · intro h
            exact absurd h (by simp)
          · rintro ⟨t, ht, h0⟩
            rcases List.mem_cons.mp ht with h | h
            · exact absurd h0 (h ▸ hs)
            · exact absurd ⟨t, h, h0⟩ hnr
        · intro ps ns h
          simp [namesFromAux, if_neg hs, hrec] at h
      | panic =>
        refine ⟨?_, ?_⟩
        · simp only [namesFromAux, if_neg hs, hrec]
          obtain ⟨t, ht, h0⟩ := ih1.mp hrec
          exact iff_of_true trivial ⟨t, List.mem_cons_of_mem _ ht, h0⟩
        · intro ps ns h
          simp [namesFromAux, if_neg hs, hrec] at h

/-- Claim C10 counterexample: a single input string with an embedded NUL
byte — `Names::from` panics (`CString::new(..).unwrap()`), rather than
returning a typed InvalidName error. -/
theorem C10_counterexample :
    namesFromVec [[104, 0, 105]] = .panic
    ∧ ∀ e, namesFromVec [[104, 0, 105]] ≠ Outcome.err e := by
  refine ⟨by decide, fun e h => ?_⟩
  rw [show namesFromVec [[104, 0, 105]] = Outcome.panic from by decide] at h
  exact Outcome.noConfusion h

/-- Claim C10 (amended): building the name table from a sequence of strings
panics (unwrap of `CString::new`'s error) — not a typed InvalidName failure —
exactly when some input string contains an embedded NUL byte; when none does,
the build succeeds and derives the raw pointer array parallel to the owned
NUL-terminated strings. -/
theorem C10_name_table (value : List (List Nat)) :
    (namesFromVec value = .panic ↔ ∃ s ∈ value, (0 : Nat) ∈ s)
    ∧ ∀ ps ns, namesFromVec value = .ok (ps, ns) →
        ps = ns.map CStr.addr
        ∧ ns.map CStr.bytes = value.map (fun s => s ++ [0]) :=
  namesFromAux_spec value 0

/-- Witness for C10 on the NUL-free input ["h", "ij"]: the derived pointer
array is parallel to the owned strings, which carry the terminator. -/
theorem C10_name_table_witness :
    [(0 : Nat), 1] = [CStr.mk 0 [104, 0], CStr.mk 1 [105, 106, 0]].map CStr.addr
    ∧ [CStr.mk 0 [104, 0], CStr.mk 1 [105, 106, 0]].map CStr.bytes
        = [[104], [105, 106]].map (fun s => s ++ [0]) :=
  (C10_name_table [[104], [105, 106]]).2 [0, 1]
    [CStr.mk 0 [104, 0], CStr.mk 1 [105, 106, 0]] (by decide)

end OrtSpec
